import Mathlib

/-!
Verification development for the eGFR / creatinine-clearance calculator
(`src/egfr.py`).

Modelling conventions:
* Python floats are modelled as exact rationals (`ℚ`); the Python integer
  `age` is `ℤ`.
* The floating-point power operator `**` with a non-integer exponent has no
  exact rational meaning, so every function that uses it is parametrised by
  an abstract `fpow : ℚ → ℚ → ℚ`; the two powers whose exponent is the
  integer `age` are the exact integer power `zpow`.
* Decimal literals of the source are written as explicit fractions
  (88.4 is 884/10, 0.9938 is 9938/10000, and so on) so that the kernel can
  evaluate them.
* `raise ValueError(msg)` is modelled by `Except String`, carrying the
  source's message strings; a function that can raise returns
  `Except String ℚ`.
* The wall-clock timestamp read by `compute_kidney_function` is passed in
  as an explicit `timestamp` argument.
-/

/-- `Sex = Literal["male", "female"]`. -/
inductive Sex where
  | male : Sex
  | female : Sex
deriving DecidableEq, Repr

/-- `ScrUnit = Literal["umol/L", "mg/dL"]`. -/
inductive ScrUnit where
  | umolL : ScrUnit
  | mgdL : ScrUnit
deriving DecidableEq, Repr

/-- `scr_to_mgdl(scr_value, unit)`: µmol/L → mg/dL divides by 88.4;
mg/dL is returned unchanged; raises when `scr_value <= 0`. -/
def scr_to_mgdl (scr_value : ℚ) (unit : ScrUnit) : Except String ℚ :=
  if scr_value ≤ 0 then .error "Creatinine phải > 0."
  else if unit = ScrUnit.umolL then .ok (scr_value / (884/10))
  else .ok scr_value

/-- `gfr_stage_g1_g5(gfr)`: KDIGO G1–G5 staging, top-down threshold scan. -/
def gfr_stage_g1_g5 (gfr : ℚ) : String × String :=
  if gfr ≥ 90 then ("G1", "Bình thường / cao (≥90)")
  else if gfr ≥ 60 then ("G2", "Giảm nhẹ (60–89)")
  else if gfr ≥ 45 then ("G3a", "Giảm nhẹ–vừa (45–59)")
  else if gfr ≥ 30 then ("G3b", "Giảm vừa–nặng (30–44)")
  else if gfr ≥ 15 then ("G4", "Giảm nặng (15–29)")
  else ("G5", "Suy thận giai đoạn cuối (<15)")

/-- `egfr_ckd_epi_2021(scr_mgdl, age, sex)`: CKD-EPI 2021 race-free
equation; raises for `age < 18`. -/
def egfr_ckd_epi_2021 (fpow : ℚ → ℚ → ℚ) (scr_mgdl : ℚ) (age : ℤ)
    (sex : Sex) : Except String ℚ :=
  if age < 18 then .error "CKD-EPI 2021: áp dụng cho người lớn (>=18 tuổi)."
  else
    let kappa : ℚ := if sex = Sex.female then (7/10) else (9/10)
    let alpha : ℚ := if sex = Sex.female then (-(241/1000)) else (-(302/1000))
    let female_factor : ℚ := if sex = Sex.female then (1012/1000) else 1
    let ratio := scr_mgdl / kappa
    let mn := min ratio 1
    let mx := max ratio 1
    .ok (142 * fpow mn alpha * fpow mx (-(1200/1000)) *
      ((9938/10000) : ℚ) ^ age * female_factor)

/-- `egfr_ckd_epi_2009(scr_mgdl, age, sex, black)`: CKD-EPI 2009 equation
with optional black coefficient; raises for `age < 18`. -/
def egfr_ckd_epi_2009 (fpow : ℚ → ℚ → ℚ) (scr_mgdl : ℚ) (age : ℤ)
    (sex : Sex) (black : Bool) : Except String ℚ :=
  if age < 18 then .error "CKD-EPI 2009: áp dụng cho người lớn (>=18 tuổi)."
  else
    let kappa : ℚ := if sex = Sex.female then (7/10) else (9/10)
    let alpha : ℚ := if sex = Sex.female then (-(329/1000)) else (-(411/1000))
    let ratio := scr_mgdl / kappa
    let mn := min ratio 1
    let mx := max ratio 1
    let female_factor : ℚ := if sex = Sex.female then (1018/1000) else 1
    let black_factor : ℚ := if black then (1159/1000) else 1
    .ok (141 * fpow mn alpha * fpow mx (-(1209/1000)) *
      ((993/1000) : ℚ) ^ age * female_factor * black_factor)

/-- `egfr_mdrd_idms(scr_mgdl, age, sex, black)`: MDRD 4-variable
(IDMS-traceable) equation; raises for `age < 18`. -/
def egfr_mdrd_idms (fpow : ℚ → ℚ → ℚ) (scr_mgdl : ℚ) (age : ℤ)
    (sex : Sex) (black : Bool) : Except String ℚ :=
  if age < 18 then .error "MDRD: áp dụng cho người lớn (>=18 tuổi)."
  else
    let female_factor : ℚ := if sex = Sex.female then (742/1000) else 1
    let black_factor : ℚ := if black then (1212/1000) else 1
    .ok (175 * fpow scr_mgdl ((-(1154/1000))) * fpow (age : ℚ) ((-(203/1000))) *
      female_factor * black_factor)

/-- `crcl_cockcroft_gault(scr_mgdl, age, sex, weight_kg)`:
Cockcroft–Gault creatinine clearance in mL/min; raises for `age < 18`
and for `weight_kg <= 0`. -/
def crcl_cockcroft_gault (scr_mgdl : ℚ) (age : ℤ) (sex : Sex)
    (weight_kg : ℚ) : Except String ℚ :=
  if age < 18 then
    .error "Cockcroft–Gault: thường dùng cho người lớn (>=18 tuổi)."
  else if weight_kg ≤ 0 then .error "Cân nặng phải > 0."
  else
    let crcl := ((140 - (age : ℚ)) * weight_kg) / (72 * scr_mgdl)
    .ok (if sex = Sex.female then crcl * (85/100) else crcl)

/-- The `KidneyResult` dataclass. -/
structure KidneyResult where
  timestamp : String
  method : String
  age : ℤ
  sex : Sex
  scr_value : ℚ
  scr_unit : ScrUnit
  scr_mgdl : ℚ
  black : Option Bool
  weight_kg : Option ℚ
  value : ℚ
  value_unit : String
  stage : String
  stage_text : String
  notes : String
deriving DecidableEq, Repr

/-- `compute_kidney_function(method, age, sex, scr_value, scr_unit, black,
weight_kg)`: normalise creatinine, dispatch on the method string,
classify, and assemble the result record. -/
def compute_kidney_function (fpow : ℚ → ℚ → ℚ) (timestamp : String)
    (method : String) (age : ℤ) (sex : Sex) (scr_value : ℚ)
    (scr_unit : ScrUnit) (black : Bool) (weight_kg : Option ℚ) :
    Except String KidneyResult :=
  match scr_to_mgdl scr_value scr_unit with
  | .error e => .error e
  | .ok scr_mgdl =>
    if method = "CKD-EPI 2021" then
      match egfr_ckd_epi_2021 fpow scr_mgdl age sex with
      | .error e => .error e
      | .ok val =>
        let st := gfr_stage_g1_g5 val
        .ok ⟨timestamp, method, age, sex, scr_value, scr_unit, scr_mgdl,
          none, none, val, "mL/min/1.73m²", st.1, st.2,
          "eGFR chuẩn hoá 1.73m² (CKD-EPI 2021, không chủng tộc)."⟩
    else if method = "CKD-EPI 2009" then
      match egfr_ckd_epi_2009 fpow scr_mgdl age sex black with
      | .error e => .error e
      | .ok val =>
        let st := gfr_stage_g1_g5 val
        .ok ⟨timestamp, method, age, sex, scr_value, scr_unit, scr_mgdl,
          some black, none, val, "mL/min/1.73m²", st.1, st.2,
          "eGFR chuẩn hoá 1.73m² (CKD-EPI 2009). Có tuỳ chọn hệ số người da đen."⟩
    else if method = "MDRD (IDMS)" then
      match egfr_mdrd_idms fpow scr_mgdl age sex black with
      | .error e => .error e
      | .ok val =>
        let st := gfr_stage_g1_g5 val
        .ok ⟨timestamp, method, age, sex, scr_value, scr_unit, scr_mgdl,
          some black, none, val, "mL/min/1.73m²", st.1, st.2,
          "eGFR chuẩn hoá 1.73m² (MDRD IDMS). Có tuỳ chọn hệ số người da đen."⟩
    else if method = "Cockcroft-Gault" then
      match weight_kg with
      | none => .error "Cockcroft–Gault cần nhập cân nặng."
      | some w =>
        match crcl_cockcroft_gault scr_mgdl age sex w with
        | .error e => .error e
        | .ok val =>
          let st := gfr_stage_g1_g5 val
          .ok ⟨timestamp, method, age, sex, scr_value, scr_unit, scr_mgdl,
            none, some w, val, "mL/min", st.1, st.2,
            "CrCl (Cockcroft–Gault) KHÔNG chuẩn hoá 1.73m²; thường dùng chỉnh liều thuốc."⟩
    else .error "Phương pháp không hợp lệ."

/-- The result record of the spec's end-to-end scenario B (Cockcroft-Gault,
age 60, female, creatinine 1 mg/dL, weight 60 kg), shared by the concrete
witnesses. -/
def cg_example_result : KidneyResult :=
  ⟨"", "Cockcroft-Gault", 60, Sex.female, 1, ScrUnit.mgdL, 1, none, some 60,
    170/3, "mL/min", "G3a", "Giảm nhẹ–vừa (45–59)",
    "CrCl (Cockcroft–Gault) KHÔNG chuẩn hoá 1.73m²; thường dùng chỉnh liều thuốc."⟩

/-- Modelled from the spec, §3 ComputationInput invariant (a spec-side
definition, used only to compare the spec's data invariant with the code):
age ≥ 18; creatinine value > 0; weight > 0 when present; weight present iff
the method is Cockcroft-Gault. -/
def spec_computation_input_invariant (method : String) (age : ℤ) (c : ℚ)
    (w : Option ℚ) : Prop :=
  18 ≤ age ∧ 0 < c ∧ (∀ w0 : ℚ, w = some w0 → 0 < w0) ∧
    (w.isSome ↔ method = "Cockcroft-Gault")

/-! ### Helper lemmas -/

/-- Unit conversion on a positive value never raises. -/
lemma scr_to_mgdl_of_pos (c : ℚ) (u : ScrUnit) (hc : 0 < c) :
    scr_to_mgdl c u = .ok (if u = ScrUnit.umolL then c / (884/10) else c) := by
  unfold scr_to_mgdl
  rw [if_neg (not_le.mpr hc)]
  split <;> simp_all

/-- Unit conversion on a non-positive value raises. -/
lemma scr_to_mgdl_of_nonpos (c : ℚ) (u : ScrUnit) (hc : c ≤ 0) :
    scr_to_mgdl c u = .error "Creatinine phải > 0." := by
  unfold scr_to_mgdl
  rw [if_pos hc]

/-! ### Claim theorems -/

/-- C2: for every creatinine value c > 0, `normalize(c, mg/dL)` returns `c`
unchanged and `normalize(c, µmol/L)` returns `c / 88.4`; and `normalize`
raises `InvalidInput` exactly when `c ≤ 0`, for either unit. -/
theorem scr_to_mgdl_spec (c : ℚ) (u : ScrUnit) :
    (0 < c → scr_to_mgdl c ScrUnit.mgdL = .ok c ∧
      scr_to_mgdl c ScrUnit.umolL = .ok (c / (884/10))) ∧
    ((∃ e, scr_to_mgdl c u = .error e) ↔ c ≤ 0) := by
  constructor
  · intro hc
    rw [scr_to_mgdl_of_pos c ScrUnit.mgdL hc, scr_to_mgdl_of_pos c ScrUnit.umolL hc]
    simp
  · constructor
    · rintro ⟨e, he⟩
      by_contra hc
      rw [scr_to_mgdl_of_pos c u (not_le.mp hc)] at he
      exact Except.noConfusion he
    · intro hc
      exact ⟨_, scr_to_mgdl_of_nonpos c u hc⟩

/-- Witness for C2 at the concrete value c = 2, unit µmol/L. -/
theorem scr_to_mgdl_spec_witness :
    (0 < (2 : ℚ) → scr_to_mgdl 2 ScrUnit.mgdL = .ok 2 ∧
      scr_to_mgdl 2 ScrUnit.umolL = .ok (2 / (884/10))) ∧
    ((∃ e, scr_to_mgdl 2 ScrUnit.umolL = .error e) ↔ (2 : ℚ) ≤ 0) :=
  scr_to_mgdl_spec 2 ScrUnit.umolL

/-- C3: `classify` is total with no error path; it returns G1 iff v ≥ 90,
G2 iff 60 ≤ v < 90, G3a iff 45 ≤ v < 60, G3b iff 30 ≤ v < 45,
G4 iff 15 ≤ v < 30, G5 iff v < 15; and the listed boundary values
(89.999 = 89999/1000 and so on) classify as the claim states. -/
theorem gfr_stage_spec :
    (∀ v : ℚ,
      ((gfr_stage_g1_g5 v).1 = "G1" ↔ 90 ≤ v) ∧
      ((gfr_stage_g1_g5 v).1 = "G2" ↔ 60 ≤ v ∧ v < 90) ∧
      ((gfr_stage_g1_g5 v).1 = "G3a" ↔ 45 ≤ v ∧ v < 60) ∧
      ((gfr_stage_g1_g5 v).1 = "G3b" ↔ 30 ≤ v ∧ v < 45) ∧
      ((gfr_stage_g1_g5 v).1 = "G4" ↔ 15 ≤ v ∧ v < 30) ∧
      ((gfr_stage_g1_g5 v).1 = "G5" ↔ v < 15)) ∧
    (gfr_stage_g1_g5 90).1 = "G1" ∧ (gfr_stage_g1_g5 (89999/1000)).1 = "G2" ∧
    (gfr_stage_g1_g5 60).1 = "G2" ∧ (gfr_stage_g1_g5 (59999/1000)).1 = "G3a" ∧
    (gfr_stage_g1_g5 45).1 = "G3a" ∧ (gfr_stage_g1_g5 30).1 = "G3b" ∧
    (gfr_stage_g1_g5 15).1 = "G4" ∧ (gfr_stage_g1_g5 (14999/1000)).1 = "G5" := by
  refine ⟨?_, by norm_num [gfr_stage_g1_g5], by norm_num [gfr_stage_g1_g5],
    by norm_num [gfr_stage_g1_g5], by norm_num [gfr_stage_g1_g5],
    by norm_num [gfr_stage_g1_g5], by norm_num [gfr_stage_g1_g5],
    by norm_num [gfr_stage_g1_g5], by norm_num [gfr_stage_g1_g5]⟩
  intro v
  unfold gfr_stage_g1_g5
  split_ifs with h1 h2 h3 h4 h5 <;>
    refine ⟨?_, ?_, ?_, ?_, ?_, ?_⟩ <;> simp_all <;>
    first
    | linarith
    | (intro _; linarith)

/-- C4: the CKD-EPI 2021 formula, for age ≥ 18, returns
142 × min(ratio,1)^α × max(ratio,1)^(−1.200) × 0.9938^age × femaleFactor
with κ = 0.7/0.9, α = −0.241/−0.302, femaleFactor = 1.012/1.0
(female/male); it takes no race input. -/
theorem egfr_ckd_epi_2021_spec (fpow : ℚ → ℚ → ℚ) (scr : ℚ) (age : ℤ)
    (sex : Sex) (h : 18 ≤ age) :
    egfr_ckd_epi_2021 fpow scr age sex =
      .ok (142 *
        fpow (min (scr / (if sex = Sex.female then (7/10) else (9/10))) 1)
          (if sex = Sex.female then (-(241/1000)) else (-(302/1000))) *
        fpow (max (scr / (if sex = Sex.female then (7/10) else (9/10))) 1)
          (-(1200/1000)) *
        ((9938/10000) : ℚ) ^ age *
        (if sex = Sex.female then (1012/1000) else 1)) := by
  unfold egfr_ckd_epi_2021
  rw [if_neg (by omega)]

/-- Witness for C4 at creatinine 1 mg/dL, age 18, male, with the abstract
power function instantiated to the constant 1. -/
theorem egfr_ckd_epi_2021_spec_witness :
    egfr_ckd_epi_2021 (fun _ _ => 1) 1 18 Sex.male =
      .ok (142 * 1 * 1 * ((9938/10000) : ℚ) ^ (18 : ℤ) * 1) :=
  egfr_ckd_epi_2021_spec (fun _ _ => 1) 1 18 Sex.male (by decide)

/-- C5: the Cockcroft-Gault formula, for age ≥ 18, returns
((140 − age) × weight) / (72 × creatinine) times 0.85 when female, raises
`InvalidInput` when weight ≤ 0; at age 60, female, creatinine 1 mg/dL,
weight 60 kg the result is 170/3 ≈ 56.67, which classifies as G3a. -/
theorem crcl_cockcroft_gault_spec (scr : ℚ) (age : ℤ) (sex : Sex) (w : ℚ)
    (h : 18 ≤ age) :
    (0 < w → crcl_cockcroft_gault scr age sex w =
      .ok (if sex = Sex.female
        then ((140 - (age : ℚ)) * w) / (72 * scr) * (85/100)
        else ((140 - (age : ℚ)) * w) / (72 * scr))) ∧
    (w ≤ 0 → ∃ e, crcl_cockcroft_gault scr age sex w = .error e) ∧
    crcl_cockcroft_gault 1 60 Sex.female 60 = .ok (170/3) ∧
    (gfr_stage_g1_g5 (170/3)).1 = "G3a" := by
  refine ⟨?_, ?_, ?_, by norm_num [gfr_stage_g1_g5]⟩
  · intro hw
    unfold crcl_cockcroft_gault
    rw [if_neg (by omega), if_neg (not_le.mpr hw)]
  · intro hw
    unfold crcl_cockcroft_gault
    rw [if_neg (by omega), if_pos hw]
    exact ⟨_, rfl⟩
  · norm_num [crcl_cockcroft_gault]

/-- Witness for C5 at the claim's own scenario: age 60, female,
creatinine 1 mg/dL, weight 60 kg. -/
theorem crcl_cockcroft_gault_spec_witness :
    (0 < (60 : ℚ) → crcl_cockcroft_gault 1 60 Sex.female 60 =
      .ok (((140 - ((60 : ℤ) : ℚ)) * 60) / (72 * 1) * (85/100))) ∧
    ((60 : ℚ) ≤ 0 → ∃ e, crcl_cockcroft_gault 1 60 Sex.female 60 = .error e) ∧
    crcl_cockcroft_gault 1 60 Sex.female 60 = .ok (170/3) ∧
    (gfr_stage_g1_g5 (170/3)).1 = "G3a" := by
  simpa using crcl_cockcroft_gault_spec 1 60 Sex.female 60 (by decide)

/-- C6: the MDRD (IDMS) formula, for age ≥ 18, returns
175 × creatinine^(−1.154) × age^(−0.203) × femaleFactor × raceFactor with
femaleFactor = 0.742/1.0 (female/male) and raceFactor 1.212 applied iff
the race flag is true. -/
theorem egfr_mdrd_idms_spec (fpow : ℚ → ℚ → ℚ) (scr : ℚ) (age : ℤ)
    (sex : Sex) (black : Bool) (h : 18 ≤ age) :
    egfr_mdrd_idms fpow scr age sex black =
      .ok (175 * fpow scr (-(1154/1000)) * fpow ((age : ℤ) : ℚ) (-(203/1000)) *
        (if sex = Sex.female then (742/1000) else 1) *
        (if black then (1212/1000) else 1)) := by
  unfold egfr_mdrd_idms
  rw [if_neg (by omega)]

/-- Witness for C6 at creatinine 1.2 mg/dL, age 50, male, race flag true,
with the abstract power function instantiated to the constant 1. -/
theorem egfr_mdrd_idms_spec_witness :
    egfr_mdrd_idms (fun _ _ => 1) (12/10) 50 Sex.male true =
      .ok (175 * 1 * 1 * 1 * (1212/1000)) := by
  simpa using egfr_mdrd_idms_spec (fun _ _ => 1) (12/10) 50 Sex.male true (by decide)

/-! ### Further helper lemmas, about the formula engine and the assembler -/

/-- CKD-EPI 2021 raises for minors. -/
lemma egfr_ckd_epi_2021_err (fpow : ℚ → ℚ → ℚ) (scr : ℚ) (age : ℤ)
    (sex : Sex) (ha : age < 18) :
    egfr_ckd_epi_2021 fpow scr age sex =
      .error "CKD-EPI 2021: áp dụng cho người lớn (>=18 tuổi)." := by
  unfold egfr_ckd_epi_2021
  rw [if_pos ha]

/-- CKD-EPI 2021 succeeds for adults. -/
lemma egfr_ckd_epi_2021_isOk (fpow : ℚ → ℚ → ℚ) (scr : ℚ) (age : ℤ)
    (sex : Sex) (ha : ¬ age < 18) :
    ∃ v, egfr_ckd_epi_2021 fpow scr age sex = .ok v := by
  unfold egfr_ckd_epi_2021
  rw [if_neg ha]
  exact ⟨_, rfl⟩

/-- CKD-EPI 2009 raises for minors. -/
lemma egfr_ckd_epi_2009_err (fpow : ℚ → ℚ → ℚ) (scr : ℚ) (age : ℤ)
    (sex : Sex) (black : Bool) (ha : age < 18) :
    egfr_ckd_epi_2009 fpow scr age sex black =
      .error "CKD-EPI 2009: áp dụng cho người lớn (>=18 tuổi)." := by
  unfold egfr_ckd_epi_2009
  rw [if_pos ha]

/-- CKD-EPI 2009 succeeds for adults. -/
lemma egfr_ckd_epi_2009_isOk (fpow : ℚ → ℚ → ℚ) (scr : ℚ) (age : ℤ)
    (sex : Sex) (black : Bool) (ha : ¬ age < 18) :
    ∃ v, egfr_ckd_epi_2009 fpow scr age sex black = .ok v := by
  unfold egfr_ckd_epi_2009
  rw [if_neg ha]
  exact ⟨_, rfl⟩

/-- MDRD raises for minors. -/
lemma egfr_mdrd_idms_err (fpow : ℚ → ℚ → ℚ) (scr : ℚ) (age : ℤ)
    (sex : Sex) (black : Bool) (ha : age < 18) :
    egfr_mdrd_idms fpow scr age sex black =
      .error "MDRD: áp dụng cho người lớn (>=18 tuổi)." := by
  unfold egfr_mdrd_idms
  rw [if_pos ha]

/-- MDRD succeeds for adults. -/
lemma egfr_mdrd_idms_isOk (fpow : ℚ → ℚ → ℚ) (scr : ℚ) (age : ℤ)
    (sex : Sex) (black : Bool) (ha : ¬ age < 18) :
    ∃ v, egfr_mdrd_idms fpow scr age sex black = .ok v := by
  unfold egfr_mdrd_idms
  rw [if_neg ha]
  exact ⟨_, rfl⟩

/-- Cockcroft–Gault raises for minors. -/
lemma crcl_cockcroft_gault_err_age (scr : ℚ) (age : ℤ) (sex : Sex)
    (w : ℚ) (ha : age < 18) :
    crcl_cockcroft_gault scr age sex w =
      .error "Cockcroft–Gault: thường dùng cho người lớn (>=18 tuổi)." := by
  unfold crcl_cockcroft_gault
  rw [if_pos ha]

/-- Cockcroft–Gault raises for non-positive weight. -/
lemma crcl_cockcroft_gault_err_weight (scr : ℚ) (age : ℤ) (sex : Sex)
    (w : ℚ) (ha : ¬ age < 18) (hw : w ≤ 0) :
    crcl_cockcroft_gault scr age sex w = .error "Cân nặng phải > 0." := by
  unfold crcl_cockcroft_gault
  rw [if_neg ha, if_pos hw]

/-- Cockcroft–Gault succeeds for adults with positive weight. -/
lemma crcl_cockcroft_gault_isOk (scr : ℚ) (age : ℤ) (sex : Sex)
    (w : ℚ) (ha : ¬ age < 18) (hw : ¬ w ≤ 0) :
    ∃ v, crcl_cockcroft_gault scr age sex w = .ok v := by
  unfold crcl_cockcroft_gault
  rw [if_neg ha, if_neg hw]
  exact ⟨_, rfl⟩

/-- Concrete evaluation: normalising 1 mg/dL. -/
lemma scr_to_mgdl_one : scr_to_mgdl 1 ScrUnit.mgdL = .ok 1 := by
  rw [scr_to_mgdl_of_pos 1 ScrUnit.mgdL (by norm_num), if_neg (by decide)]

/-- Concrete evaluation: the Cockcroft–Gault value of scenario B. -/
lemma crcl_cg_example :
    crcl_cockcroft_gault 1 60 Sex.female 60 = .ok (170/3) := by
  norm_num [crcl_cockcroft_gault]

/-- Concrete evaluation: 170/3 ≈ 56.67 classifies as G3a. -/
lemma gfr_stage_cg_example :
    gfr_stage_g1_g5 (170/3) = ("G3a", "Giảm nhẹ–vừa (45–59)") := by
  norm_num [gfr_stage_g1_g5]

/-- Concrete evaluation: the assembler on scenario B. -/
lemma compute_cg_example :
    compute_kidney_function (fun _ _ => 1) "" "Cockcroft-Gault" 60 Sex.female
      1 ScrUnit.mgdL false (some 60) = .ok cg_example_result := by
  simp [compute_kidney_function, scr_to_mgdl_one, crcl_cg_example,
    gfr_stage_cg_example, cg_example_result]

/-- Any successful run of the assembler took one of the four method
branches, and the returned record is exactly the branch's record. -/
lemma compute_ok_elim (fpow : ℚ → ℚ → ℚ) (ts method : String) (age : ℤ)
    (sex : Sex) (c : ℚ) (u : ScrUnit) (black : Bool) (w : Option ℚ)
    (r : KidneyResult)
    (hr : compute_kidney_function fpow ts method age sex c u black w = .ok r) :
    ∃ m, scr_to_mgdl c u = .ok m ∧
      ((method = "CKD-EPI 2021" ∧ ∃ v, egfr_ckd_epi_2021 fpow m age sex = .ok v ∧
          r = ⟨ts, method, age, sex, c, u, m, none, none, v, "mL/min/1.73m²",
            (gfr_stage_g1_g5 v).1, (gfr_stage_g1_g5 v).2,
            "eGFR chuẩn hoá 1.73m² (CKD-EPI 2021, không chủng tộc)."⟩) ∨
       (method = "CKD-EPI 2009" ∧
          ∃ v, egfr_ckd_epi_2009 fpow m age sex black = .ok v ∧
          r = ⟨ts, method, age, sex, c, u, m, some black, none, v, "mL/min/1.73m²",
            (gfr_stage_g1_g5 v).1, (gfr_stage_g1_g5 v).2,
            "eGFR chuẩn hoá 1.73m² (CKD-EPI 2009). Có tuỳ chọn hệ số người da đen."⟩) ∨
       (method = "MDRD (IDMS)" ∧
          ∃ v, egfr_mdrd_idms fpow m age sex black = .ok v ∧
          r = ⟨ts, method, age, sex, c, u, m, some black, none, v, "mL/min/1.73m²",
            (gfr_stage_g1_g5 v).1, (gfr_stage_g1_g5 v).2,
            "eGFR chuẩn hoá 1.73m² (MDRD IDMS). Có tuỳ chọn hệ số người da đen."⟩) ∨
       (method = "Cockcroft-Gault" ∧
          ∃ w0 v, w = some w0 ∧ crcl_cockcroft_gault m age sex w0 = .ok v ∧
          r = ⟨ts, method, age, sex, c, u, m, none, some w0, v, "mL/min",
            (gfr_stage_g1_g5 v).1, (gfr_stage_g1_g5 v).2,
            "CrCl (Cockcroft–Gault) KHÔNG chuẩn hoá 1.73m²; thường dùng chỉnh liều thuốc."⟩)) := by
  unfold compute_kidney_function at hr
  split at hr
  · exact absurd hr (by simp)
  · rename_i m hm
    refine ⟨m, hm, ?_⟩
    split at hr
    · rename_i h1
      split at hr
      · exact absurd hr (by simp)
      · rename_i v hv
        exact .inl ⟨h1, v, hv, (Except.ok.inj hr).symm⟩
    · rename_i h1
      split at hr
      · rename_i h2
        split at hr
        · exact absurd hr (by simp)
        · rename_i v hv
          exact .inr (.inl ⟨h2, v, hv, (Except.ok.inj hr).symm⟩)
      · rename_i h2
        split at hr
        · rename_i h3
          split at hr
          · exact absurd hr (by simp)
          · rename_i v hv
            exact .inr (.inr (.inl ⟨h3, v, hv, (Except.ok.inj hr).symm⟩))
        · rename_i h3
          split at hr
          · rename_i h4
            split at hr
            · exact absurd hr (by simp)
            · rename_i w0
              split at hr
              · exact absurd hr (by simp)
              · rename_i v hv
                exact .inr (.inr (.inr ⟨h4, w0, v, rfl, hv,
                  (Except.ok.inj hr).symm⟩))
          · rename_i h4
            exact absurd hr (by simp)

/-- C1: for every input on which `compute_kidney_function` succeeds, the
record's numeric filtration value is the selected method's formula applied
to the creatinine value normalised to mg/dL, its stage code and stage text
are the classification of that value, and its unit label is
"mL/min/1.73m²" for CKD-EPI 2021 / CKD-EPI 2009 / MDRD (IDMS) and
"mL/min" for Cockcroft-Gault. -/
theorem compute_result_spec (fpow : ℚ → ℚ → ℚ) (ts method : String)
    (age : ℤ) (sex : Sex) (c : ℚ) (u : ScrUnit) (black : Bool)
    (w : Option ℚ) (r : KidneyResult)
    (hr : compute_kidney_function fpow ts method age sex c u black w = .ok r) :
    scr_to_mgdl c u = .ok r.scr_mgdl ∧
    (r.stage, r.stage_text) = gfr_stage_g1_g5 r.value ∧
    ((method = "CKD-EPI 2021" ∧
        egfr_ckd_epi_2021 fpow r.scr_mgdl age sex = .ok r.value ∧
        r.value_unit = "mL/min/1.73m²") ∨
     (method = "CKD-EPI 2009" ∧
        egfr_ckd_epi_2009 fpow r.scr_mgdl age sex black = .ok r.value ∧
        r.value_unit = "mL/min/1.73m²") ∨
     (method = "MDRD (IDMS)" ∧
        egfr_mdrd_idms fpow r.scr_mgdl age sex black = .ok r.value ∧
        r.value_unit = "mL/min/1.73m²") ∨
     (method = "Cockcroft-Gault" ∧
        (∃ w0, w = some w0 ∧
          crcl_cockcroft_gault r.scr_mgdl age sex w0 = .ok r.value) ∧
        r.value_unit = "mL/min")) := by
  obtain ⟨m, hm, hcase⟩ := compute_ok_elim fpow ts method age sex c u black w r hr
  rcases hcase with ⟨h1, v, hv, rfl⟩ | ⟨h1, v, hv, rfl⟩ | ⟨h1, v, hv, rfl⟩ |
    ⟨h1, w0, v, hw, hv, rfl⟩
  · exact ⟨hm, rfl, .inl ⟨h1, hv, rfl⟩⟩
  · exact ⟨hm, rfl, .inr (.inl ⟨h1, hv, rfl⟩)⟩
  · exact ⟨hm, rfl, .inr (.inr (.inl ⟨h1, hv, rfl⟩))⟩
  · exact ⟨hm, rfl, .inr (.inr (.inr ⟨h1, ⟨w0, hw, hv⟩, rfl⟩))⟩

/-- Witness for C1 at the spec's scenario B input. -/
theorem compute_result_spec_witness :
    scr_to_mgdl 1 ScrUnit.mgdL = .ok cg_example_result.scr_mgdl ∧
    (cg_example_result.stage, cg_example_result.stage_text) =
      gfr_stage_g1_g5 cg_example_result.value ∧
    ((("Cockcroft-Gault" : String) = "CKD-EPI 2021" ∧
        egfr_ckd_epi_2021 (fun _ _ => 1) cg_example_result.scr_mgdl 60 Sex.female =
          .ok cg_example_result.value ∧
        cg_example_result.value_unit = "mL/min/1.73m²") ∨
     (("Cockcroft-Gault" : String) = "CKD-EPI 2009" ∧
        egfr_ckd_epi_2009 (fun _ _ => 1) cg_example_result.scr_mgdl 60 Sex.female false =
          .ok cg_example_result.value ∧
        cg_example_result.value_unit = "mL/min/1.73m²") ∨
     (("Cockcroft-Gault" : String) = "MDRD (IDMS)" ∧
        egfr_mdrd_idms (fun _ _ => 1) cg_example_result.scr_mgdl 60 Sex.female false =
          .ok cg_example_result.value ∧
        cg_example_result.value_unit = "mL/min/1.73m²") ∨
     (("Cockcroft-Gault" : String) = "Cockcroft-Gault" ∧
        (∃ w0, (some 60 : Option ℚ) = some w0 ∧
          crcl_cockcroft_gault cg_example_result.scr_mgdl 60 Sex.female w0 =
            .ok cg_example_result.value) ∧
        cg_example_result.value_unit = "mL/min")) :=
  compute_result_spec (fun _ _ => 1) "" "Cockcroft-Gault" 60 Sex.female 1
    ScrUnit.mgdL false (some 60) cg_example_result compute_cg_example

/-- C7: the assembler raises `InvalidInput` exactly when the creatinine
value is non-positive, or the age is below 18, or the method selector is
unrecognised, or the method is Cockcroft-Gault with a missing or
non-positive weight; on every other input it returns a record. -/
theorem compute_error_spec (fpow : ℚ → ℚ → ℚ) (ts method : String)
    (age : ℤ) (sex : Sex) (c : ℚ) (u : ScrUnit) (black : Bool)
    (w : Option ℚ) :
    ((∃ e, compute_kidney_function fpow ts method age sex c u black w =
        .error e) ↔
      (c ≤ 0 ∨ age < 18 ∨
        (method ≠ "CKD-EPI 2021" ∧ method ≠ "CKD-EPI 2009" ∧
          method ≠ "MDRD (IDMS)" ∧ method ≠ "Cockcroft-Gault") ∨
        (method = "Cockcroft-Gault" ∧
          (w = none ∨ ∃ w0, w = some w0 ∧ w0 ≤ 0)))) ∧
    ((∃ r, compute_kidney_function fpow ts method age sex c u black w =
        .ok r) ↔
      ¬(c ≤ 0 ∨ age < 18 ∨
        (method ≠ "CKD-EPI 2021" ∧ method ≠ "CKD-EPI 2009" ∧
          method ≠ "MDRD (IDMS)" ∧ method ≠ "Cockcroft-Gault") ∨
        (method = "Cockcroft-Gault" ∧
          (w = none ∨ ∃ w0, w = some w0 ∧ w0 ≤ 0)))) := by
  have herr : (∃ e, compute_kidney_function fpow ts method age sex c u black w =
      .error e) ↔
      (c ≤ 0 ∨ age < 18 ∨
        (method ≠ "CKD-EPI 2021" ∧ method ≠ "CKD-EPI 2009" ∧
          method ≠ "MDRD (IDMS)" ∧ method ≠ "Cockcroft-Gault") ∨
        (method = "Cockcroft-Gault" ∧
          (w = none ∨ ∃ w0, w = some w0 ∧ w0 ≤ 0))) := by
    by_cases hc : c ≤ 0
    · simp only [compute_kidney_function, scr_to_mgdl_of_nonpos c u hc]
      simp [hc]
    · have hc' : 0 < c := not_le.mp hc
      simp only [compute_kidney_function, scr_to_mgdl_of_pos c u hc']
      by_cases h1 : method = "CKD-EPI 2021"
      · subst h1
        by_cases ha : age < 18
        · rw [egfr_ckd_epi_2021_err fpow _ age sex ha]
          simp [ha]
        · obtain ⟨v, hv⟩ := egfr_ckd_epi_2021_isOk fpow
            (if u = ScrUnit.umolL then c / (884/10) else c) age sex ha
          rw [hv]
          simp [ha, hc]
      · by_cases h2 : method = "CKD-EPI 2009"
        · subst h2
          by_cases ha : age < 18
          · rw [egfr_ckd_epi_2009_err fpow _ age sex black ha]
            simp [ha]
          · obtain ⟨v, hv⟩ := egfr_ckd_epi_2009_isOk fpow
              (if u = ScrUnit.umolL then c / (884/10) else c) age sex black ha
            rw [hv]
            simp [ha, hc]
        · by_cases h3 : method = "MDRD (IDMS)"
          · subst h3
            by_cases ha : age < 18
            · rw [egfr_mdrd_idms_err fpow _ age sex black ha]
              simp [ha]
            · obtain ⟨v, hv⟩ := egfr_mdrd_idms_isOk fpow
                (if u = ScrUnit.umolL then c / (884/10) else c) age sex black ha
              rw [hv]
              simp [ha, hc]
          · by_cases h4 : method = "Cockcroft-Gault"
            · subst h4
              rcases w with _ | w0
              · simp [hc]
              · by_cases ha : age < 18
                · simp [crcl_cockcroft_gault_err_age
                    (if u = ScrUnit.umolL then c / (884/10) else c) age sex w0 ha, ha]
                · by_cases hw0 : w0 ≤ 0
                  · simp [crcl_cockcroft_gault_err_weight
                      (if u = ScrUnit.umolL then c / (884/10) else c) age sex w0 ha hw0,
                      ha, hw0]
                  · obtain ⟨v, hv⟩ := crcl_cockcroft_gault_isOk
                      (if u = ScrUnit.umolL then c / (884/10) else c) age sex w0 ha hw0
                    simp [hv, ha, hc, hw0]
            · rw [if_neg h1, if_neg h2, if_neg h3, if_neg h4]
              simp [h1, h2, h3, h4]
  refine ⟨herr, ?_, ?_⟩
  · rintro ⟨r, hrr⟩ hT
    obtain ⟨e, he⟩ := herr.mpr hT
    rw [hrr] at he
    exact Except.noConfusion he
  · intro hnT
    cases hC : compute_kidney_function fpow ts method age sex c u black w with
    | ok r => exact ⟨r, rfl⟩
    | error e => exact absurd (herr.mp ⟨e, hC⟩) hnT

/-- C8: the assembler fails with the weight-required `InvalidInput` when
the method is Cockcroft-Gault and the weight is null; and an input that
supplies a weight with any of the other three methods violates the spec's
ComputationInput invariant (weight present iff Cockcroft-Gault). -/
theorem compute_weight_presence_spec (fpow : ℚ → ℚ → ℚ) (ts : String)
    (age : ℤ) (sex : Sex) (c : ℚ) (u : ScrUnit) (black : Bool)
    (method : String) (w0 : ℚ) (hc : 0 < c)
    (hm : method = "CKD-EPI 2021" ∨ method = "CKD-EPI 2009" ∨
      method = "MDRD (IDMS)") :
    compute_kidney_function fpow ts "Cockcroft-Gault" age sex c u black none =
      .error "Cockcroft–Gault cần nhập cân nặng." ∧
    ¬ spec_computation_input_invariant method age c (some w0) := by
  constructor
  · unfold compute_kidney_function
    rw [scr_to_mgdl_of_pos c u hc]
    simp
  · rintro ⟨_, _, _, hiff⟩
    have hcg : method = "Cockcroft-Gault" := hiff.mp (by simp)
    rcases hm with rfl | rfl | rfl <;> exact absurd hcg (by simp)

/-- Witness for C8 at a concrete Cockcroft-Gault call without weight, and
a concrete MDRD input carrying a weight. -/
theorem compute_weight_presence_spec_witness :
    compute_kidney_function (fun _ _ => 1) "" "Cockcroft-Gault" 60 Sex.female
      1 ScrUnit.mgdL false none = .error "Cockcroft–Gault cần nhập cân nặng." ∧
    ¬ spec_computation_input_invariant "MDRD (IDMS)" 60 1 (some 70) :=
  compute_weight_presence_spec (fun _ _ => 1) "" 60 Sex.female 1 ScrUnit.mgdL
    false "MDRD (IDMS)" 70 (by norm_num) (by simp)

/-- C9 counterexample: with method CKD-EPI 2021 and a supplied race flag of
true, the returned record's race-flag field is null, not the supplied
flag, so the record does not echo the race flag as claimed. -/
theorem compute_echo_counterexample :
    (compute_kidney_function (fun _ _ => 1) "" "CKD-EPI 2021" 40 Sex.male 1
      ScrUnit.mgdL true none).map KidneyResult.black = .ok none ∧
    (.ok none : Except String (Option Bool)) ≠ .ok (some true) := by
  constructor
  · obtain ⟨v, hv⟩ := egfr_ckd_epi_2021_isOk (fun _ _ => 1) 1 40 Sex.male
      (by omega)
    simp [compute_kidney_function, scr_to_mgdl_one, hv, Except.map]
  · simp

/-- C9 amended: a successful record echoes method, age, sex, creatinine
value and unit, and carries the normalised creatinine; the race-flag field
equals the supplied flag only for CKD-EPI 2009 and MDRD (IDMS) (null
otherwise), and the weight field equals the supplied weight only for
Cockcroft-Gault (null otherwise). -/
theorem compute_echo_spec (fpow : ℚ → ℚ → ℚ) (ts method : String) (age : ℤ)
    (sex : Sex) (c : ℚ) (u : ScrUnit) (black : Bool) (w : Option ℚ)
    (r : KidneyResult)
    (hr : compute_kidney_function fpow ts method age sex c u black w = .ok r) :
    r.timestamp = ts ∧ r.method = method ∧ r.age = age ∧ r.sex = sex ∧
    r.scr_value = c ∧ r.scr_unit = u ∧
    scr_to_mgdl c u = .ok r.scr_mgdl ∧
    r.black = (if method = "CKD-EPI 2009" ∨ method = "MDRD (IDMS)"
      then some black else none) ∧
    r.weight_kg = (if method = "Cockcroft-Gault" then w else none) := by
  obtain ⟨m, hm, hcase⟩ := compute_ok_elim fpow ts method age sex c u black w r hr
  rcases hcase with ⟨h1, v, hv, rfl⟩ | ⟨h1, v, hv, rfl⟩ | ⟨h1, v, hv, rfl⟩ |
    ⟨h1, w0, v, hw, hv, rfl⟩
  · subst h1
    simp [hm]
  · subst h1
    simp [hm]
  · subst h1
    simp [hm]
  · subst h1
    simp [hm, hw]

/-- Witness for C9 (amended) at the spec's scenario B input. -/
theorem compute_echo_spec_witness :
    cg_example_result.timestamp = "" ∧
    cg_example_result.method = "Cockcroft-Gault" ∧
    cg_example_result.age = 60 ∧
    cg_example_result.sex = Sex.female ∧
    cg_example_result.scr_value = 1 ∧
    cg_example_result.scr_unit = ScrUnit.mgdL ∧
    scr_to_mgdl 1 ScrUnit.mgdL = .ok cg_example_result.scr_mgdl ∧
    cg_example_result.black = (if ("Cockcroft-Gault" : String) = "CKD-EPI 2009" ∨
      ("Cockcroft-Gault" : String) = "MDRD (IDMS)" then some false else none) ∧
    cg_example_result.weight_kg =
      (if ("Cockcroft-Gault" : String) = "Cockcroft-Gault"
        then some 60 else none) :=
  compute_echo_spec (fun _ _ => 1) "" "Cockcroft-Gault" 60 Sex.female 1
    ScrUnit.mgdL false (some 60) cg_example_result compute_cg_example

/-- C10: for every input whose creatinine value is ≤ 0, the assembler
raises the non-positive-creatinine `InvalidInput`, whatever the method,
age and weight are: normalisation runs before dispatch and before every
other check. -/
theorem compute_creatinine_first (fpow : ℚ → ℚ → ℚ) (ts method : String)
    (age : ℤ) (sex : Sex) (c : ℚ) (u : ScrUnit) (black : Bool)
    (w : Option ℚ) (hc : c ≤ 0) :
    compute_kidney_function fpow ts method age sex c u black w =
      .error "Creatinine phải > 0." := by
  unfold compute_kidney_function
  rw [scr_to_mgdl_of_nonpos c u hc]

/-- Witness for C10: creatinine −1 with an unrecognised method, age 5 and
no weight still yields the creatinine error. -/
theorem compute_creatinine_first_witness :
    compute_kidney_function (fun _ _ => 1) "" "bogus" 5 Sex.male (-1)
      ScrUnit.umolL false none = .error "Creatinine phải > 0." :=
  compute_creatinine_first (fun _ _ => 1) "" "bogus" 5 Sex.male (-1)
    ScrUnit.umolL false none (by norm_num)
